import Mathlib

/-!
Shallow embedding of the LiquidGlass effect library (src/src/index.js).

The library is a single class managing: a configuration record merged over
defaults with the JavaScript logical-or operator, a per-instance SVG filter
(noise, blur, displacement) appended to a lazily created shared SVG container,
a projection of the configuration onto CSS custom properties of the target
element, optional pointer-drag behavior, incremental update methods, and a
destroy method.

Modelling decisions:
  * JavaScript strings are Lean String, JavaScript numbers are Rat (the
    development only evaluates numbers at short terminating decimals, where
    Rat agrees exactly with IEEE doubles and with their JS serialization).
  * A DOM element is a record of its inline style declarations (an association
    list keyed by property name, as written by style.setProperty and the
    style.foo setters), its class list, and its laid-out client geometry
    (left and top of getBoundingClientRect, kept fixed by the embedding:
    the source reads the geometry only once per gesture, at pointer-down).
  * The document is the state relevant to the shared SVG filter container
    (id "liquid-glass-svg-filters"): absent, or present holding the ids of
    the filter nodes appended to it, in insertion order.  The mutable stage
    parameters of an instance's filter node are carried in the instance state
    (in the DOM the container references the same node object).
  * Math.random().toString(36).substr(2, 9) is an environmental source of
    tokens; construct takes the token as an argument.
-/

namespace LiquidGlass

/-- JavaScript logical-or defaulting on an optional string argument:
absent (undefined) and the empty string (the only falsy string) both
fall back to the default. -/
def jsOrStr (v : Option String) (d : String) : String :=
  match v with
  | none => d
  | some s => if s = "" then d else s

/-- JavaScript logical-or defaulting on an optional number argument:
absent (undefined) and zero (falsy) fall back to the default.  (NaN, the
other falsy number, is outside the Rat model.) -/
def jsOrNum (v : Option Rat) (d : Rat) : Rat :=
  match v with
  | none => d
  | some x => if x = 0 then d else x

/-- JavaScript logical-or defaulting on an optional boolean argument. -/
def jsOrBool (v : Option Bool) (d : Bool) : Bool :=
  match v with
  | none => d
  | some b => if b then b else d

/-- The full configuration record this.options, as assembled by the
constructor (src/src/index.js lines 13-40). -/
structure Options where
  shadowOffset : String
  shadowBlur : String
  shadowSpread : String
  shadowColor : String
  tintColor : String
  tintOpacity : Rat
  frostBlur : String
  noiseFrequency : Rat
  distortionStrength : Rat
  outerShadowBlur : String
  outerShadowColor : String
  borderRadius : String
  draggable : Bool
  deriving DecidableEq

/-- The caller-supplied options object: any subset of the configuration
fields (absent fields are undefined). -/
structure OptionsInput where
  shadowOffset : Option String
  shadowBlur : Option String
  shadowSpread : Option String
  shadowColor : Option String
  tintColor : Option String
  tintOpacity : Option Rat
  frostBlur : Option String
  noiseFrequency : Option Rat
  distortionStrength : Option Rat
  outerShadowBlur : Option String
  outerShadowColor : Option String
  borderRadius : Option String
  draggable : Option Bool
  deriving DecidableEq

/-- The empty options object (constructing with no options argument). -/
def emptyInput : OptionsInput :=
  ⟨none, none, none, none, none, none, none, none, none, none, none, none, none⟩

/-- The constructor's merge of the caller options over the defaults,
field by field with the JavaScript logical-or (src/src/index.js lines 13-40). -/
def mkOptions (p : OptionsInput) : Options where
  shadowOffset := jsOrStr p.shadowOffset "0px"
  shadowBlur := jsOrStr p.shadowBlur "20px"
  shadowSpread := jsOrStr p.shadowSpread "-5px"
  shadowColor := jsOrStr p.shadowColor "rgba(255, 255, 255, 0.8)"
  tintColor := jsOrStr p.tintColor "rgba(255, 255, 255, 0.4)"
  tintOpacity := jsOrNum p.tintOpacity (mkRat 4 10)
  frostBlur := jsOrStr p.frostBlur "2px"
  noiseFrequency := jsOrNum p.noiseFrequency (mkRat 8 1000)
  distortionStrength := jsOrNum p.distortionStrength 77
  outerShadowBlur := jsOrStr p.outerShadowBlur "24px"
  outerShadowColor := jsOrStr p.outerShadowColor "rgba(0, 0, 0, 0.2)"
  borderRadius := jsOrStr p.borderRadius "20px"
  draggable := jsOrBool p.draggable false

/-- Inline style declarations of an element: an association list from
property name to value, first binding wins on lookup. -/
abbrev Styles := List (String × String)

/-- style.setProperty p v (and the style.foo = v setters): overwrite the
binding for p in place if present, else append it. -/
def setStyle : Styles → String → String → Styles
  | [], p, v => [(p, v)]
  | (q, w) :: rest, p, v =>
      if q = p then (p, v) :: rest else (q, w) :: setStyle rest p v

/-- style.getPropertyValue p: the current binding, if any. -/
def getStyle : Styles → String → Option String
  | [], _ => none
  | (q, w) :: rest, p => if q = p then some w else getStyle rest p

/-- style.removeProperty p: drop every binding for p. -/
def removeStyle (l : Styles) (p : String) : Styles :=
  l.filter (fun kv => kv.1 ≠ p)

/-- A DOM element, reduced to the state the library reads and writes. -/
structure Element where
  styles : Styles
  classes : List String
  rectLeft : Rat
  rectTop : Rat
  deriving DecidableEq

def setProp (e : Element) (p v : String) : Element :=
  { e with styles := setStyle e.styles p v }

def getProp (e : Element) (p : String) : Option String :=
  getStyle e.styles p

def removeProp (e : Element) (p : String) : Element :=
  { e with styles := removeStyle e.styles p }

/-- classList.add: a DOMTokenList is a set, adding a present token is a no-op. -/
def addClass (e : Element) (c : String) : Element :=
  if c ∈ e.classes then e else { e with classes := e.classes ++ [c] }

/-- classList.remove: drop every occurrence of the token. -/
def removeClass (e : Element) (c : String) : Element :=
  { e with classes := e.classes.filter (fun x => x ≠ c) }

/-- The per-instance SVG filter node: three stages wired in fixed order
(feTurbulence then feGaussianBlur then feDisplacementMap), with the
attributes the source sets (src/src/index.js lines 80-122).  Numeric
attributes that the source can later patch are carried as numbers. -/
structure FilterGraph where
  id : String
  turbulenceType : String
  baseFrequency : Rat
  numOctaves : String
  turbulenceResult : String
  blurIn : String
  stdDeviation : String
  blurResult : String
  displacementIn : String
  displacementIn2 : String
  scale : Rat
  xChannelSelector : String
  yChannelSelector : String
  deriving DecidableEq

/-- Document-level shared state: the SVG filter container
("liquid-glass-svg-filters").  none while it has never been created;
some ids once created, holding the ids of the filters currently appended. -/
structure Document where
  container : Option (List String)
  deriving DecidableEq

/-- A fresh document: the shared container does not exist yet. -/
def emptyDocument : Document := ⟨none⟩

/-- Whether a filter id is currently an entry of the shared container. -/
def inRegistry (doc : Document) (fid : String) : Bool :=
  match doc.container with
  | none => false
  | some l => fid ∈ l

/-- createSVGFilter (src/src/index.js lines 64-127): ensure the shared
container exists (creating it empty on first use), build the three-stage
filter from the instance options, and append it to the container. -/
def createSVGFilter (doc : Document) (fid : String) (o : Options) :
    Document × FilterGraph :=
  let existing := match doc.container with
    | none => []
    | some l => l
  let fg : FilterGraph :=
    { id := fid
      turbulenceType := "fractalNoise"
      baseFrequency := o.noiseFrequency
      numOctaves := "3"
      turbulenceResult := "noise"
      blurIn := "noise"
      stdDeviation := "0.6"
      blurResult := "blurred"
      displacementIn := "SourceGraphic"
      displacementIn2 := "blurred"
      scale := o.distortionStrength
      xChannelSelector := "R"
      yChannelSelector := "G" }
  (⟨some (existing ++ [fid])⟩, fg)

/-- The drag closure state of makeDraggable (src/src/index.js lines 145-197).
The source leaves the four coordinates undefined until the first
pointer-down; they are only read while a drag is active, by which point
they have been assigned, so the embedding carries them as plain numbers
initialized to 0. -/
structure DragState where
  isDragging : Bool
  startX : Rat
  startY : Rat
  initialX : Rat
  initialY : Rat
  deriving DecidableEq

def dragInit : DragState := ⟨false, 0, 0, 0, 0⟩

/-- The state of one LiquidGlass instance.  filterAttached mirrors whether
the instance's filter node is still a child of the shared container
(this.svgFilter.parentNode); hasCleanup mirrors whether this.cleanup was
assigned (makeDraggable ran); listenersAttached mirrors whether the drag
event listeners are currently registered. -/
structure GlassState where
  element : Element
  options : Options
  svgFilterId : String
  svgFilter : FilterGraph
  filterAttached : Bool
  hasCleanup : Bool
  listenersAttached : Bool
  drag : DragState
  deriving DecidableEq

/-- applyStyles (src/src/index.js lines 129-143): project the configuration
onto the element's CSS custom properties, in source order. -/
def applyStyles (e : Element) (o : Options) (fid : String) : Element :=
  let e := setProp e "--shadow-offset" o.shadowOffset
  let e := setProp e "--shadow-blur" o.shadowBlur
  let e := setProp e "--shadow-spread" o.shadowSpread
  let e := setProp e "--shadow-color" o.shadowColor
  let e := setProp e "--tint-color" o.tintColor
  let e := setProp e "--frost-blur" o.frostBlur
  let e := setProp e "--outer-shadow-blur" o.outerShadowBlur
  let e := setProp e "--outer-shadow-color" o.outerShadowColor
  let e := setProp e "--border-radius" o.borderRadius
  setProp e "--glass-filter-url" ("url(#" ++ fid ++ ")")

/-- The filter id built by the constructor from the random token
(src/src/index.js lines 42-44). -/
def filterIdOf (tok : String) : String := "glass-distortion-" ++ tok

/-- The constructor plus init (src/src/index.js lines 7-62): reject a null
element, merge the options, add the liquid-glass class, create the SVG
filter inside the shared container, apply the styles, and attach drag
behavior (which sets the grab cursor) when draggable.  tok stands for the
Math.random token; the document threads the shared container state. -/
def construct (surface : Option Element) (p : OptionsInput) (tok : String)
    (doc : Document) : Except String GlassState × Document :=
  match surface with
  | none => (Except.error "LiquidGlass requires a valid DOM element", doc)
  | some el0 =>
    let o := mkOptions p
    let fid := filterIdOf tok
    let el1 := addClass el0 "liquid-glass"
    let res := createSVGFilter doc fid o
    let el2 := applyStyles el1 o fid
    let attach := o.draggable
    let el3 := if attach then setProp el2 "cursor" "grab" else el2
    (Except.ok
      { element := el3
        options := o
        svgFilterId := fid
        svgFilter := res.2
        filterAttached := true
        hasCleanup := attach
        listenersAttached := attach
        drag := dragInit },
     res.1)

/-- The ten custom properties destroy removes (src/src/index.js lines 284-297). -/
def stylesToRemove : List String :=
  ["--shadow-offset", "--shadow-blur", "--shadow-spread", "--shadow-color",
   "--tint-color", "--frost-blur", "--outer-shadow-blur",
   "--outer-shadow-color", "--border-radius", "--glass-filter-url"]

/-- destroy (src/src/index.js lines 270-301): detach the filter node from
its parent if still attached, remove the liquid-glass class, run the drag
cleanup if it exists (deregistering the listeners), and remove the ten
custom properties.  Filter detachment is modelled as dropping the
instance's id from the container (ids are generated distinct in practice). -/
def destroy (s : GlassState) (doc : Document) : GlassState × Document :=
  let doc1 : Document :=
    if s.filterAttached then
      ⟨doc.container.map (fun l => l.filter (fun x => x ≠ s.svgFilterId))⟩
    else doc
  let el1 := removeClass s.element "liquid-glass"
  let listeners1 := if s.hasCleanup then false else s.listenersAttached
  let el2 := stylesToRemove.foldl removeProp el1
  ({ s with element := el2, filterAttached := false,
            listenersAttached := listeners1 },
   doc1)

/-- Fraction digits of r / d in decimal, with fuel bounding the expansion;
used only at values with short terminating expansions, where it agrees with
the JavaScript serialization of the corresponding double. -/
def fracDigits : Nat → Nat → Nat → String
  | 0, _, _ => ""
  | fuel + 1, r, d =>
      if r = 0 then ""
      else toString (r * 10 / d) ++ fracDigits fuel (r * 10 % d) d

/-- JavaScript number-to-string conversion, modelled for numbers with short
terminating decimal expansions (the only numbers this development
serializes): sign, integer part, and fraction digits. -/
def jsNumToString (q : Rat) : String :=
  let sign := if q < 0 then "-" else ""
  let n := q.num.natAbs
  let d := q.den
  let ip := n / d
  let r := n % d
  if r = 0 then sign ++ toString ip
  else sign ++ toString ip ++ "." ++ fracDigits 20 (n % d) d

/-- Characters matched by the regular-expression class backslash-s
(common whitespace; the exotic unicode spaces never occur in the
development's inputs). -/
def isSpaceChar (c : Char) : Bool :=
  c = ' ' || c = '\t' || c = '\n' || c = '\r' || c = '\x0b' || c = '\x0c'

/-- Maximal run of decimal digits at the head of the input, with the rest. -/
def takeDigits : List Char → List Char × List Char
  | [] => ([], [])
  | c :: cs =>
      if c.isDigit then
        let res := takeDigits cs
        (c :: res.1, res.2)
      else ([], c :: cs)

/-- Skip leading whitespace characters. -/
def skipSpaces : List Char → List Char
  | [] => []
  | c :: cs => if isSpaceChar c then skipSpaces cs else c :: cs

/-- Attempt to match, at the head of the input, the pattern of the source
regular expression for a color triple: the literal rgb, an optional a, an
opening parenthesis, then three capture groups of one or more digits
separated by a comma and optional whitespace.  Returns the three captured
digit groups. -/
def matchTripleAt (l : List Char) : Option (String × String × String) :=
  match l with
  | 'r' :: 'g' :: 'b' :: rest =>
    let afterParen : Option (List Char) :=
      match rest with
      | '(' :: r2 => some r2
      | 'a' :: '(' :: r2 => some r2
      | _ => none
    match afterParen with
    | none => none
    | some r2 =>
      match takeDigits r2 with
      | ([], _) => none
      | (d1, r3) =>
        match r3 with
        | ',' :: r4 =>
          match takeDigits (skipSpaces r4) with
          | ([], _) => none
          | (d2, r6) =>
            match r6 with
            | ',' :: r7 =>
              match takeDigits (skipSpaces r7) with
              | ([], _) => none
              | (d3, _) => some (String.mk d1, String.mk d2, String.mk d3)
            | _ => none
        | _ => none
  | _ => none

/-- Unanchored search of the color-triple pattern: the leftmost position
where it matches wins, as for a JavaScript String.match with an unanchored
regular expression. -/
def rgbaSearch : List Char → Option (String × String × String)
  | [] => none
  | c :: cs =>
    match matchTripleAt (c :: cs) with
    | some g => some g
    | none => rgbaSearch cs

/-- Argument record of updateShadow. -/
structure ShadowArgs where
  blur : Option String
  spread : Option String
  color : Option String
  offset : Option String
  deriving DecidableEq

/-- updateShadow (src/src/index.js lines 200-217): for each present field,
overwrite the configuration field and the matching custom property. -/
def updateShadow (a : ShadowArgs) (s : GlassState) : GlassState :=
  let s := match a.blur with
    | some v =>
        { s with options := { s.options with shadowBlur := v },
                 element := setProp s.element "--shadow-blur" v }
    | none => s
  let s := match a.spread with
    | some v =>
        { s with options := { s.options with shadowSpread := v },
                 element := setProp s.element "--shadow-spread" v }
    | none => s
  let s := match a.color with
    | some v =>
        { s with options := { s.options with shadowColor := v },
                 element := setProp s.element "--shadow-color" v }
    | none => s
  match a.offset with
  | some v =>
      { s with options := { s.options with shadowOffset := v },
               element := setProp s.element "--shadow-offset" v }
  | none => s

/-- Argument record of updateTint. -/
structure TintArgs where
  color : Option String
  opacity : Option Rat
  deriving DecidableEq

/-- updateTint (src/src/index.js lines 219-235): a present color overwrites
the stored tintColor and its custom property; a present opacity overwrites
the stored tintOpacity, then re-parses the current stored tintColor with
the color-triple pattern: on a match it writes a re-synthesized
rgba(g1, g2, g3, opacity) string to the custom property only (the stored
tintColor is not changed); on no match nothing further happens. -/
def updateTint (a : TintArgs) (s : GlassState) : GlassState :=
  let s := match a.color with
    | some c =>
        { s with options := { s.options with tintColor := c },
                 element := setProp s.element "--tint-color" c }
    | none => s
  match a.opacity with
  | some q =>
    let s := { s with options := { s.options with tintOpacity := q } }
    match rgbaSearch s.options.tintColor.data with
    | some g =>
      let newColor := "rgba(" ++ g.1 ++ ", " ++ g.2.1 ++ ", " ++ g.2.2 ++
        ", " ++ jsNumToString q ++ ")"
      { s with element := setProp s.element "--tint-color" newColor }
    | none => s
  | none => s

/-- updateFrost (src/src/index.js lines 237-240): unconditional overwrite of
the stored frostBlur and its custom property. -/
def updateFrost (blur : String) (s : GlassState) : GlassState :=
  { s with options := { s.options with frostBlur := blur },
           element := setProp s.element "--frost-blur" blur }

/-- Argument record of updateDistortion. -/
structure DistortionArgs where
  frequency : Option Rat
  strength : Option Rat
  deriving DecidableEq

/-- updateDistortion (src/src/index.js lines 242-257): a present frequency
overwrites the stored noiseFrequency and patches the turbulence stage's
baseFrequency; a present strength overwrites the stored distortionStrength
and patches the displacement stage's scale.  (The source guards the patches
on querySelector finding the stage; the instance's filter always carries
its three stages, so the guards always pass.) -/
def updateDistortion (a : DistortionArgs) (s : GlassState) : GlassState :=
  let s := match a.frequency with
    | some f =>
        { s with options := { s.options with noiseFrequency := f },
                 svgFilter := { s.svgFilter with baseFrequency := f } }
    | none => s
  match a.strength with
  | some st =>
      { s with options := { s.options with distortionStrength := st },
               svgFilter := { s.svgFilter with scale := st } }
  | none => s

/-- Argument record of updateOuterShadow. -/
structure OuterShadowArgs where
  blur : Option String
  color : Option String
  deriving DecidableEq

/-- updateOuterShadow (src/src/index.js lines 259-268). -/
def updateOuterShadow (a : OuterShadowArgs) (s : GlassState) : GlassState :=
  let s := match a.blur with
    | some v =>
        { s with options := { s.options with outerShadowBlur := v },
                 element := setProp s.element "--outer-shadow-blur" v }
    | none => s
  match a.color with
  | some v =>
      { s with options := { s.options with outerShadowColor := v },
               element := setProp s.element "--outer-shadow-color" v }
  | none => s

/-- onMouseDown (src/src/index.js lines 149-159): start a drag, record the
pointer origin and the element's current laid-out top-left, set the
grabbing cursor.  x and y stand for the event's resolved client
coordinates (e.clientX or the first touch point). -/
def onMouseDown (x y : Rat) (s : GlassState) : GlassState :=
  { s with
    drag := { isDragging := true, startX := x, startY := y,
              initialX := s.element.rectLeft, initialY := s.element.rectTop },
    element := setProp s.element "cursor" "grabbing" }

/-- onMouseMove (src/src/index.js lines 161-174): while a drag is active,
switch the element to absolute positioning and write left and top as the
recorded origin position plus the pointer delta. -/
def onMouseMove (x y : Rat) (s : GlassState) : GlassState :=
  if s.drag.isDragging then
    let deltaX := x - s.drag.startX
    let deltaY := y - s.drag.startY
    let el := setProp s.element "position" "absolute"
    let el := setProp el "left" (jsNumToString (s.drag.initialX + deltaX) ++ "px")
    let el := setProp el "top" (jsNumToString (s.drag.initialY + deltaY) ++ "px")
    { s with element := el }
  else s

/-- onMouseUp (src/src/index.js lines 176-179): end the drag, reset the
cursor to grab. -/
def onMouseUp (s : GlassState) : GlassState :=
  { s with drag := { s.drag with isDragging := false },
           element := setProp s.element "cursor" "grab" }

/-- Delivery of a mousedown or touchstart event: the handler runs only while
the listeners are registered. -/
def dispatchMouseDown (x y : Rat) (s : GlassState) : GlassState :=
  if s.listenersAttached then onMouseDown x y s else s

/-- Delivery of a document-level mousemove or touchmove event. -/
def dispatchMouseMove (x y : Rat) (s : GlassState) : GlassState :=
  if s.listenersAttached then onMouseMove x y s else s

/-- Delivery of a document-level mouseup or touchend event. -/
def dispatchMouseUp (s : GlassState) : GlassState :=
  if s.listenersAttached then onMouseUp s else s

/-- Constructing a sequence of instances on the same document, one per random
token, keeping only the document (shared-container) state: the fold of the
constructor's document effect. -/
def constructMany (el : Element) (p : OptionsInput) (toks : List String)
    (doc : Document) : Document :=
  toks.foldl (fun d t => (construct (some el) p t d).2) doc

/-- Removal of one instance's filter from the shared container, as performed
by destroy (parentNode.removeChild of the filter node). -/
def removeFilterFromDoc (doc : Document) (fid : String) : Document :=
  ⟨doc.container.map (fun l => l.filter (fun x => x ≠ fid))⟩

/-- Modelled from the spec (sections 3 and 4.1, testable property 1): the
construction merge in which every field specified by the caller is taken
verbatim (including falsy values) and every unspecified field equals its
documented default.  Stated for comparison with the source merge mkOptions. -/
def specConstructOptions (p : OptionsInput) : Options where
  shadowOffset := p.shadowOffset.getD "0px"
  shadowBlur := p.shadowBlur.getD "20px"
  shadowSpread := p.shadowSpread.getD "-5px"
  shadowColor := p.shadowColor.getD "rgba(255, 255, 255, 0.8)"
  tintColor := p.tintColor.getD "rgba(255, 255, 255, 0.4)"
  tintOpacity := p.tintOpacity.getD (mkRat 4 10)
  frostBlur := p.frostBlur.getD "2px"
  noiseFrequency := p.noiseFrequency.getD (mkRat 8 1000)
  distortionStrength := p.distortionStrength.getD 77
  outerShadowBlur := p.outerShadowBlur.getD "24px"
  outerShadowColor := p.outerShadowColor.getD "rgba(0, 0, 0, 0.2)"
  borderRadius := p.borderRadius.getD "20px"
  draggable := p.draggable.getD false

/-- The caller options contain no falsy value: no specified string field is
the empty string and no specified numeric field is zero.  (The draggable
flag needs no condition: a specified false coincides with the default.) -/
def TruthyInput (p : OptionsInput) : Prop :=
  p.shadowOffset ≠ some "" ∧ p.shadowBlur ≠ some "" ∧
  p.shadowSpread ≠ some "" ∧ p.shadowColor ≠ some "" ∧
  p.tintColor ≠ some "" ∧ p.tintOpacity ≠ some 0 ∧
  p.frostBlur ≠ some "" ∧ p.noiseFrequency ≠ some 0 ∧
  p.distortionStrength ≠ some 0 ∧ p.outerShadowBlur ≠ some "" ∧
  p.outerShadowColor ≠ some "" ∧ p.borderRadius ≠ some ""

instance (p : OptionsInput) : Decidable (TruthyInput p) := by
  unfold TruthyInput; infer_instance

/-- A bare element with no inline styles and no classes, laid out at the
viewport origin. -/
def elEx : Element := ⟨[], [], 0, 0⟩

/-- A fallback instance state, used only to make the Except projection below
total; never reached on the inputs of this development. -/
def fallbackState : GlassState :=
  ⟨elEx, mkOptions emptyInput, "",
   (createSVGFilter emptyDocument "" (mkOptions emptyInput)).2,
   false, false, false, dragInit⟩

/-- Project the instance out of a successful construction. -/
def stateOf (r : Except String GlassState × Document) : GlassState :=
  match r.1 with
  | Except.ok s => s
  | Except.error _ => fallbackState

/-- An instance constructed with tintColor rgba(10,20,30,0.4). -/
def sTintA : GlassState :=
  stateOf (construct (some elEx)
    { emptyInput with tintColor := some "rgba(10,20,30,0.4)" }
    "aaa111aaa" emptyDocument)

/-- A concrete truthy partial configuration: two string fields supplied with
non-empty values, everything else absent. -/
def pTruthyEx : OptionsInput :=
  { emptyInput with shadowBlur := some "30px", borderRadius := some "16px" }

/-- An instance constructed with a tintColor that the color-triple pattern
does not match. -/
def sTintB : GlassState :=
  stateOf (construct (some elEx)
    { emptyInput with tintColor := some "linear-gradient(to right, red, blue)" }
    "bbb222bbb" emptyDocument)

/-- Construction of a draggable instance on a surface laid out at (50,50). -/
def rDragEx : Except String GlassState × Document :=
  construct (some ⟨[], [], 50, 50⟩) { emptyInput with draggable := some true }
    "ccc333ccc" emptyDocument

/-- The draggable instance at (50,50). -/
def sDragEx : GlassState := stateOf rDragEx

/-- The draggable instance after a full gesture: pointer-down at (100,100),
pointer-move to (130,140), pointer-up.  Its surface carries inline cursor,
position, left and top declarations. -/
def sDragged : GlassState :=
  dispatchMouseUp (dispatchMouseMove 130 140 (dispatchMouseDown 100 100 sDragEx))

/-- Construction used by the teardown witness. -/
def rDestroyEx : Except String GlassState × Document :=
  construct (some elEx) emptyInput "ddd444ddd" emptyDocument

/-- A freshly constructed instance for the teardown witness. -/
def sDestroyEx : GlassState := stateOf rDestroyEx

/-- The document as construction of sDestroyEx left it. -/
def docDestroyEx : Document := rDestroyEx.2

section Lemmas

/-- Lookup after setStyle: the written property reads back the value, any
other property is untouched. -/
theorem getStyle_setStyle (l : Styles) (p v q) :
    getStyle (setStyle l p v) q = if q = p then some v else getStyle l q := by
  induction l with
  | nil =>
    by_cases h : q = p
    · simp [setStyle, getStyle, h]
    · have hs : ¬p = q := fun e => h e.symm
      simp [setStyle, getStyle, h, hs]
  | cons kv rest ih =>
    obtain ⟨k, w⟩ := kv
    by_cases hk : k = p
    · subst hk
      by_cases h : q = k
      · simp [setStyle, getStyle, h]
      · have hs : ¬k = q := fun e => h e.symm
        simp [setStyle, getStyle, h, hs]
    · by_cases h : q = k
      · subst h
        simp [setStyle, hk, getStyle]
      · have hs : ¬k = q := fun e => h e.symm
        simp [setStyle, hk, getStyle, hs, ih]

theorem getProp_setProp (e : Element) (p v q) :
    getProp (setProp e p v) q = if q = p then some v else getProp e q := by
  simp [getProp, setProp, getStyle_setStyle]

/-- Lookup after removeStyle: the removed property is gone, any other
property is untouched. -/
theorem getStyle_removeStyle (l : Styles) (p q) :
    getStyle (removeStyle l p) q = if q = p then none else getStyle l q := by
  induction l with
  | nil => by_cases h : q = p <;> simp [removeStyle, getStyle, h]
  | cons kv rest ih =>
    obtain ⟨k, w⟩ := kv
    by_cases hk : k = p
    · subst hk
      by_cases h : q = k
      · simp_all [removeStyle, getStyle, List.filter_cons]
      · have hs : ¬k = q := fun e => h e.symm
        simp_all [removeStyle, getStyle, List.filter_cons, hs]
    · by_cases h : q = k
      · subst h
        simp_all [removeStyle, getStyle, List.filter_cons]
      · have hs : ¬k = q := fun e => h e.symm
        simp_all [removeStyle, getStyle, List.filter_cons, hk, hs]

theorem getProp_removeProp (e : Element) (p q) :
    getProp (removeProp e p) q = if q = p then none else getProp e q := by
  simp [getProp, removeProp, getStyle_removeStyle]

theorem classes_setProp (e : Element) (p v) :
    (setProp e p v).classes = e.classes := rfl

theorem classes_removeProp (e : Element) (p) :
    (removeProp e p).classes = e.classes := rfl

/-- Lookup after a fold of removeProp over a list of property names. -/
theorem getProp_foldl_removeProp (L : List String) (e : Element) (q) :
    getProp (L.foldl removeProp e) q = if q ∈ L then none else getProp e q := by
  induction L generalizing e with
  | nil => simp
  | cons a t ih =>
    by_cases h : q = a
    · subst h
      by_cases ht : q ∈ t <;>
        simp [List.foldl_cons, ih, getProp_removeProp, ht]
    · by_cases ht : q ∈ t <;>
        simp [List.foldl_cons, ih, getProp_removeProp, ht, h]

theorem classes_foldl_removeProp (L : List String) (e : Element) :
    (L.foldl removeProp e).classes = e.classes := by
  induction L generalizing e with
  | nil => rfl
  | cons a t ih => simp [List.foldl_cons, ih, classes_removeProp]

/-- jsOrStr coincides with plain defaulting when the argument is not the
empty string. -/
theorem jsOrStr_eq_getD (v : Option String) (d : String) (h : v ≠ some "") :
    jsOrStr v d = v.getD d := by
  cases v with
  | none => rfl
  | some s =>
    have hs : s ≠ "" := fun hs => h (by rw [hs])
    simp [jsOrStr, hs]

/-- jsOrNum coincides with plain defaulting when the argument is not zero. -/
theorem jsOrNum_eq_getD (v : Option Rat) (d : Rat) (h : v ≠ some 0) :
    jsOrNum v d = v.getD d := by
  cases v with
  | none => rfl
  | some x =>
    have hx : x ≠ 0 := fun hx => h (by rw [hx])
    simp [jsOrNum, hx]

/-- jsOrBool with a false default coincides with plain defaulting. -/
theorem jsOrBool_false (v : Option Bool) :
    jsOrBool v false = v.getD false := by
  cases v with
  | none => rfl
  | some b => cases b <;> rfl

/-- Unfolding of updateTint when only the opacity is supplied: the stored
tintOpacity is overwritten, then the style write happens only when the
stored tintColor matches the color-triple pattern. -/
theorem updateTint_opacity_eq (q : Rat) (s : GlassState) :
    updateTint ⟨none, some q⟩ s =
      match rgbaSearch s.options.tintColor.data with
      | some g =>
          { s with options := { s.options with tintOpacity := q },
                   element := setProp s.element "--tint-color"
                     ("rgba(" ++ g.1 ++ ", " ++ g.2.1 ++ ", " ++ g.2.2 ++
                      ", " ++ jsNumToString q ++ ")") }
      | none =>
          { s with options := { s.options with tintOpacity := q } } := rfl

/-- Filtering twice with the same predicate filters once. -/
theorem filter_twice {α : Type} (f : α → Bool) (l : List α) :
    (l.filter f).filter f = l.filter f := by
  rw [List.filter_filter]
  apply List.filter_congr
  intro x _
  cases h : f x <;> simp [h]

/-- A fold of removeProp over a list of names is one filter on the styles. -/
theorem foldl_removeProp_eq (L : List String) (e : Element) :
    L.foldl removeProp e
      = { e with styles := e.styles.filter (fun kv => decide (kv.1 ∉ L)) } := by
  induction L generalizing e with
  | nil => simp
  | cons a t ih =>
    rw [List.foldl_cons, ih]
    cases e
    simp only [removeProp, removeStyle]
    congr 1
    rw [List.filter_filter]
    apply List.filter_congr
    intro x _
    by_cases h1 : x.1 = a <;> by_cases h2 : x.1 ∈ t <;> simp [h1, h2]

/-- Unfolding of the instance component of destroy. -/
theorem destroy_fst (s : GlassState) (doc : Document) :
    (destroy s doc).1 = { s with
      element :=
        stylesToRemove.foldl removeProp (removeClass s.element "liquid-glass"),
      filterAttached := false,
      listenersAttached :=
        if s.hasCleanup then false else s.listenersAttached } := rfl

/-- Unfolding of the document component of destroy. -/
theorem destroy_snd (s : GlassState) (doc : Document) :
    (destroy s doc).2 =
      if s.filterAttached then
        ⟨doc.container.map (fun l => l.filter (fun x => x ≠ s.svgFilterId))⟩
      else doc := rfl

/-- On a list without duplicates, filtering one value out is erasing it. -/
theorem filter_ne_eq_erase {l : List String} (h : l.Nodup) (a : String) :
    l.filter (fun x => x ≠ a) = l.erase a := by
  rw [List.Nodup.erase_eq_filter h a]
  apply List.filter_congr
  intro x _
  by_cases hx : x = a <;> simp [hx]

/-- Distinct random tokens give distinct filter ids. -/
theorem filterIdOf_inj : Function.Injective filterIdOf := by
  intro a b h
  have h2 : ("glass-distortion-" ++ a).data = ("glass-distortion-" ++ b).data :=
    congrArg String.data h
  simp only [String.data_append] at h2
  have h3 := List.append_cancel_left h2
  cases a
  cases b
  exact congrArg String.mk h3

/-- Once the shared container exists, each further construction appends its
own filter id to it. -/
theorem constructMany_some (el : Element) (p : OptionsInput)
    (toks : List String) :
    ∀ l : List String,
      (constructMany el p toks ⟨some l⟩).container
        = some (l ++ toks.map filterIdOf) := by
  induction toks with
  | nil => intro l; simp [constructMany]
  | cons t ts ih =>
    intro l
    show (constructMany el p ts ((construct (some el) p t ⟨some l⟩).2)).container
      = _
    rw [show (construct (some el) p t (⟨some l⟩ : Document)).2
        = (⟨some (l ++ [filterIdOf t])⟩ : Document) from rfl]
    rw [ih (l ++ [filterIdOf t])]
    simp [List.append_assoc]

end Lemmas

/-- Claim C1 (corrected).  The claim as stated is false: the constructor
merges with the JavaScript logical-or, so a caller-supplied falsy value
(zero or the empty string) is replaced by the default rather than kept
verbatim.  Amended claim, proved here: for every partial configuration in
which no supplied field is falsy (and for every absent field), construct
produces the full configuration of the spec, every unspecified field
equal to its documented default and every such specified field equal to
the caller value verbatim. -/
theorem claim1_defaults_amended (p : OptionsInput) (h : TruthyInput p) :
    mkOptions p = specConstructOptions p := by
  obtain ⟨h1, h2, h3, h4, h5, h6, h7, h8, h9, h10, h11, h12⟩ := h
  cases p
  simp only [mkOptions, specConstructOptions, Options.mk.injEq]
  refine ⟨jsOrStr_eq_getD _ _ h1, jsOrStr_eq_getD _ _ h2,
    jsOrStr_eq_getD _ _ h3, jsOrStr_eq_getD _ _ h4,
    jsOrStr_eq_getD _ _ h5, jsOrNum_eq_getD _ _ h6,
    jsOrStr_eq_getD _ _ h7, jsOrNum_eq_getD _ _ h8,
    jsOrNum_eq_getD _ _ h9, jsOrStr_eq_getD _ _ h10,
    jsOrStr_eq_getD _ _ h11, jsOrStr_eq_getD _ _ h12,
    jsOrBool_false _⟩

/-- Claim C1, counterexample to the claim as stated: a caller-supplied
tintOpacity of 0 (a falsy value the claim says is kept verbatim) is
replaced by the default 0.4. -/
theorem claim1_counterexample :
    (mkOptions { emptyInput with tintOpacity := some 0 }).tintOpacity =
      mkRat 4 10 ∧
    (mkOptions { emptyInput with tintOpacity := some 0 }).tintOpacity ≠ 0 := by
  constructor
  · decide
  · decide

/-- Claim C1, witness: a concrete truthy partial configuration on which the
amended theorem applies. -/
theorem claim1_witness :
    TruthyInput pTruthyEx ∧ mkOptions pTruthyEx = specConstructOptions pTruthyEx :=
  ⟨by decide, claim1_defaults_amended pTruthyEx (by decide)⟩

/-- Claim C3 (confirmed).  Constructing on a null surface fails synchronously
with the invalid-target error and has no side effects: the document (the
shared filter container state) is returned unchanged and no instance is
produced. -/
theorem claim3_null_surface (p : OptionsInput) (tok : String) (doc : Document) :
    construct none p tok doc =
      (Except.error "LiquidGlass requires a valid DOM element", doc) := rfl

/-- Claim C8 (confirmed).  updateDistortion with frequency 0.02 and strength
120 makes the filter graph's turbulence stage read back exactly 0.02 and
its displacement stage exactly 120 (and stores both configuration fields);
updateDistortion with the empty record changes nothing at all. -/
theorem claim8_distortion_roundtrip (s : GlassState) :
    ((updateDistortion ⟨some (mkRat 2 100), some 120⟩ s).svgFilter.baseFrequency
        = mkRat 2 100 ∧
     (updateDistortion ⟨some (mkRat 2 100), some 120⟩ s).svgFilter.scale = 120 ∧
     (updateDistortion ⟨some (mkRat 2 100), some 120⟩ s).options.noiseFrequency
        = mkRat 2 100 ∧
     (updateDistortion ⟨some (mkRat 2 100), some 120⟩ s).options.distortionStrength
        = 120) ∧
    updateDistortion ⟨none, none⟩ s = s :=
  ⟨⟨rfl, rfl, rfl, rfl⟩, rfl⟩

/-- Claim C2 (corrected).  The claim as stated is false only in the exact
spelling of the written value: the source re-synthesizes the color with a
space after each comma.  Amended claim, proved here: if the stored
tintColor is rgba(10,20,30,0.4), updateTint with opacity 0.9 writes the
tint style variable as exactly rgba(10, 20, 30, 0.9) while the stored
tintColor field stays rgba(10,20,30,0.4); and if the stored tintColor does
not match the color-triple shape, updateTint with opacity 0.9 leaves the
element (styles and classes) and the stored tintColor unchanged, raising
no error. -/
theorem claim2_tint_amended :
    (∀ s : GlassState, s.options.tintColor = "rgba(10,20,30,0.4)" →
      getProp ((updateTint ⟨none, some (mkRat 9 10)⟩ s).element) "--tint-color"
          = some "rgba(10, 20, 30, 0.9)" ∧
      (updateTint ⟨none, some (mkRat 9 10)⟩ s).options.tintColor
          = "rgba(10,20,30,0.4)") ∧
    (∀ s : GlassState, rgbaSearch s.options.tintColor.data = none →
      (updateTint ⟨none, some (mkRat 9 10)⟩ s).element = s.element ∧
      (updateTint ⟨none, some (mkRat 9 10)⟩ s).options.tintColor
          = s.options.tintColor) := by
  constructor
  · intro s h
    have hsearch : rgbaSearch s.options.tintColor.data
        = some ("10", "20", "30") := by rw [h]; decide
    rw [updateTint_opacity_eq, hsearch]
    refine ⟨?_, h⟩
    rw [getProp_setProp, if_pos (rfl : "--tint-color" = "--tint-color")]
    decide
  · intro s h
    rw [updateTint_opacity_eq, h]
    exact ⟨rfl, rfl⟩

/-- Claim C2, counterexample to the claim as stated: on a constructed
instance whose stored tintColor is rgba(10,20,30,0.4), updateTint with
opacity 0.9 writes rgba(10, 20, 30, 0.9) (with spaces), not the literal
rgba(10,20,30,0.9) the claim names. -/
theorem claim2_counterexample :
    sTintA.options.tintColor = "rgba(10,20,30,0.4)" ∧
    getProp ((updateTint ⟨none, some (mkRat 9 10)⟩ sTintA).element)
        "--tint-color" = some "rgba(10, 20, 30, 0.9)" ∧
    getProp ((updateTint ⟨none, some (mkRat 9 10)⟩ sTintA).element)
        "--tint-color" ≠ some "rgba(10,20,30,0.9)" := by
  refine ⟨by decide, by decide, by decide⟩

/-- Claim C2, witness: the amended theorem applied to two concrete
constructed instances, one with the matching rgba tint and one with a
gradient tint. -/
theorem claim2_witness :
    (sTintA.options.tintColor = "rgba(10,20,30,0.4)" ∧
     (updateTint ⟨none, some (mkRat 9 10)⟩ sTintA).options.tintColor
        = "rgba(10,20,30,0.4)") ∧
    (rgbaSearch sTintB.options.tintColor.data = none ∧
     (updateTint ⟨none, some (mkRat 9 10)⟩ sTintB).element = sTintB.element) :=
  ⟨⟨by decide, (claim2_tint_amended.1 sTintA (by decide)).2⟩,
   ⟨by decide, (claim2_tint_amended.2 sTintB (by decide)).1⟩⟩

/-- Claim C4 (confirmed).  For every instance whose filter is still attached
(as construction leaves it) and every document: after destroy the surface
carries none of the ten style variables written at construction and
rewritten by updates, the liquid-glass class is removed, the instance's
filter entry is absent from the shared container, and running destroy a
second time changes nothing (so in particular it raises no error: every
removal re-runs harmlessly on the already-absent entities). -/
theorem claim4_destroy_teardown (s : GlassState) (doc : Document)
    (hAtt : s.filterAttached = true) :
    (getProp (destroy s doc).1.element "--shadow-offset" = none ∧
     getProp (destroy s doc).1.element "--shadow-blur" = none ∧
     getProp (destroy s doc).1.element "--shadow-spread" = none ∧
     getProp (destroy s doc).1.element "--shadow-color" = none ∧
     getProp (destroy s doc).1.element "--tint-color" = none ∧
     getProp (destroy s doc).1.element "--frost-blur" = none ∧
     getProp (destroy s doc).1.element "--outer-shadow-blur" = none ∧
     getProp (destroy s doc).1.element "--outer-shadow-color" = none ∧
     getProp (destroy s doc).1.element "--border-radius" = none ∧
     getProp (destroy s doc).1.element "--glass-filter-url" = none) ∧
    ("liquid-glass" ∉ (destroy s doc).1.element.classes) ∧
    (inRegistry (destroy s doc).2 s.svgFilterId = false) ∧
    destroy (destroy s doc).1 (destroy s doc).2 = destroy s doc := by
  have hnone : ∀ p, p ∈ stylesToRemove →
      getProp (destroy s doc).1.element p = none := by
    intro p hp
    rw [destroy_fst]
    show getProp
      (stylesToRemove.foldl removeProp (removeClass s.element "liquid-glass"))
      p = none
    rw [getProp_foldl_removeProp]
    simp [hp]
  refine ⟨⟨hnone _ (by decide), hnone _ (by decide), hnone _ (by decide),
    hnone _ (by decide), hnone _ (by decide), hnone _ (by decide),
    hnone _ (by decide), hnone _ (by decide), hnone _ (by decide),
    hnone _ (by decide)⟩, ?_, ?_, ?_⟩
  · rw [destroy_fst]
    show "liquid-glass" ∉
      (stylesToRemove.foldl removeProp
        (removeClass s.element "liquid-glass")).classes
    rw [foldl_removeProp_eq]
    simp [removeClass]
  · rw [destroy_snd, if_pos hAtt]
    cases hc : doc.container with
    | none => simp [inRegistry]
    | some l => simp [inRegistry, List.mem_filter]
  · obtain ⟨⟨st, cl, rl, rt⟩, opts, fid, fg, fa, hc, la, dr⟩ := s
    by_cases h : hc <;>
      simp [destroy, removeClass, foldl_removeProp_eq, filter_twice, h]

/-- Claim C4, witness: a freshly constructed draggable instance together with
its document; the theorem applies and its registry conclusion holds there. -/
theorem claim4_witness :
    sDestroyEx.filterAttached = true ∧
    inRegistry (destroy sDestroyEx docDestroyEx).2 sDestroyEx.svgFilterId
      = false :=
  ⟨by decide,
   (claim4_destroy_teardown sDestroyEx docDestroyEx (by decide)).2.2.1⟩

/-- Claim C10 (confirmed).  destroy removes only the ten named style
variables: every other inline style declaration — in particular the cursor
written when drag behavior is attached and during gestures, and the
position, left and top written by pointer-move during a drag — is exactly
as it was before destroy. -/
theorem claim10_destroy_scope (s : GlassState) (doc : Document) :
    (∀ p, p ∉ stylesToRemove →
        getProp (destroy s doc).1.element p = getProp s.element p) ∧
    getProp (destroy s doc).1.element "cursor" = getProp s.element "cursor" ∧
    getProp (destroy s doc).1.element "position"
        = getProp s.element "position" ∧
    getProp (destroy s doc).1.element "left" = getProp s.element "left" ∧
    getProp (destroy s doc).1.element "top" = getProp s.element "top" := by
  have hmain : ∀ p, p ∉ stylesToRemove →
      getProp (destroy s doc).1.element p = getProp s.element p := by
    intro p hp
    rw [destroy_fst]
    show getProp
      (stylesToRemove.foldl removeProp (removeClass s.element "liquid-glass"))
      p = getProp s.element p
    rw [getProp_foldl_removeProp]
    simp [hp]
    rfl
  exact ⟨hmain, hmain "cursor" (by decide), hmain "position" (by decide),
    hmain "left" (by decide), hmain "top" (by decide)⟩

/-- Claim C10, witness: an instance that went through a full drag gesture,
so its surface carries cursor, position, left and top inline declarations;
destroy leaves its cursor declaration in place (and it reads grab, as
pointer-up left it). -/
theorem claim10_witness :
    ("cursor" ∉ stylesToRemove ∧
     getProp (destroy sDragged emptyDocument).1.element "cursor"
        = getProp sDragged.element "cursor") ∧
    getProp sDragged.element "cursor" = some "grab" :=
  ⟨⟨by decide,
    (claim10_destroy_scope sDragged emptyDocument).1 "cursor" (by decide)⟩,
   by decide⟩

/-- Claim C5 (confirmed).  On a draggable surface whose laid-out top-left is
(50,50): pointer-down at (100,100) followed by pointer-move to (130,140)
writes the surface's absolute top-left as left 80px and top 90px — the
position recorded at pointer-down plus the pointer delta — and after
pointer-up every further pointer-move changes nothing. -/
theorem claim5_drag_gesture (s : GlassState) (u v : Rat)
    (hL : s.listenersAttached = true)
    (hx : s.element.rectLeft = 50) (hy : s.element.rectTop = 50) :
    getProp (dispatchMouseMove 130 140 (dispatchMouseDown 100 100 s)).element
        "left" = some "80px" ∧
    getProp (dispatchMouseMove 130 140 (dispatchMouseDown 100 100 s)).element
        "top" = some "90px" ∧
    dispatchMouseMove u v
        (dispatchMouseUp
          (dispatchMouseMove 130 140 (dispatchMouseDown 100 100 s)))
      = dispatchMouseUp
          (dispatchMouseMove 130 140 (dispatchMouseDown 100 100 s)) := by
  refine ⟨?_, ?_, ?_⟩
  · simp only [dispatchMouseDown, dispatchMouseMove, onMouseDown, onMouseMove,
      hL, if_true]
    simp [getProp_setProp, hx]
    rw [show (50 : Rat) + (130 - 100) = 80 by norm_num]
    decide
  · simp only [dispatchMouseDown, dispatchMouseMove, onMouseDown, onMouseMove,
      hL, if_true]
    simp [getProp_setProp, hy]
    rw [show (50 : Rat) + (140 - 100) = 90 by norm_num]
    decide
  · simp [dispatchMouseDown, dispatchMouseMove, dispatchMouseUp,
      onMouseDown, onMouseMove, onMouseUp, hL]

/-- Claim C5, witness: the concrete draggable instance constructed at
(50,50), with the post-gesture move delivered at (500,600). -/
theorem claim5_witness :
    (sDragEx.listenersAttached = true ∧ sDragEx.element.rectLeft = 50 ∧
     sDragEx.element.rectTop = 50) ∧
    (getProp (dispatchMouseMove 130 140
        (dispatchMouseDown 100 100 sDragEx)).element "left" = some "80px" ∧
     dispatchMouseMove 500 600
        (dispatchMouseUp (dispatchMouseMove 130 140
          (dispatchMouseDown 100 100 sDragEx)))
      = dispatchMouseUp (dispatchMouseMove 130 140
          (dispatchMouseDown 100 100 sDragEx))) :=
  ⟨⟨by decide, by decide, by decide⟩,
   ⟨(claim5_drag_gesture sDragEx 500 600 (by decide) (by decide)
      (by decide)).1,
    (claim5_drag_gesture sDragEx 500 600 (by decide) (by decide)
      (by decide)).2.2⟩⟩

/-- Claim C6 (corrected).  The claim as stated is false: pointer-down does
not touch the positioning mode; the source switch to absolute positioning
sits in the pointer-move handler.  Amended claim, proved here: pointer-down
leaves the surface's position declaration unchanged, and the switch to
absolute happens as a side effect of the first pointer-move processed
while dragging — immediately after the first pointer-move following a
pointer-down, the positioning mode is absolute. -/
theorem claim6_position_amended (s : GlassState) (x y u v : Rat) :
    getProp (dispatchMouseDown x y s).element "position"
        = getProp s.element "position" ∧
    (s.listenersAttached = true →
      getProp (dispatchMouseMove u v (dispatchMouseDown x y s)).element
          "position" = some "absolute") := by
  constructor
  · by_cases hL : s.listenersAttached <;>
      simp [dispatchMouseDown, onMouseDown, hL, getProp_setProp]
  · intro hL
    simp [dispatchMouseDown, dispatchMouseMove, onMouseDown, onMouseMove, hL,
      getProp_setProp]

/-- Claim C6, counterexample to the claim as stated: on the concrete
draggable instance, immediately after the first pointer-down (before any
pointer-move) the surface's positioning mode is not absolute — no position
declaration has been written at all. -/
theorem claim6_counterexample :
    getProp (dispatchMouseDown 100 100 sDragEx).element "position" = none ∧
    getProp (dispatchMouseDown 100 100 sDragEx).element "position"
      ≠ some "absolute" := by
  exact ⟨by decide, by decide⟩

/-- Claim C6, witness: the amended theorem applied to the concrete draggable
instance. -/
theorem claim6_witness :
    sDragEx.listenersAttached = true ∧
    getProp (dispatchMouseMove 130 140
        (dispatchMouseDown 100 100 sDragEx)).element "position"
      = some "absolute" :=
  ⟨by decide,
   (claim6_position_amended sDragEx 100 100 130 140).2 (by decide)⟩

/-- Claim C7 (confirmed).  Constructing any nonempty sequence of instances
(one per random token, tokens pairwise distinct as collision resistance
provides) on a fresh document yields exactly one shared filter container —
created by the first construction and reused, never duplicated, by all
later ones — holding one filter entry per instance, all distinct, each
addressable by its own id; and removing any one instance's entry leaves
exactly the entries of the other instances. -/
theorem claim7_registry (el : Element) (p : OptionsInput) (toks : List String)
    (hne : toks ≠ []) (hnd : toks.Nodup) :
    (constructMany el p toks emptyDocument).container
        = some (toks.map filterIdOf) ∧
    (toks.map filterIdOf).Nodup ∧
    ∀ t, t ∈ toks →
      (removeFilterFromDoc (constructMany el p toks emptyDocument)
          (filterIdOf t)).container
        = some ((toks.map filterIdOf).erase (filterIdOf t)) := by
  have hmapnd : (toks.map filterIdOf).Nodup := List.Nodup.map filterIdOf_inj hnd
  have hcont : (constructMany el p toks emptyDocument).container
      = some (toks.map filterIdOf) := by
    cases toks with
    | nil => exact absurd rfl hne
    | cons t0 ts =>
      show (constructMany el p ts
        ((construct (some el) p t0 emptyDocument).2)).container = _
      rw [show (construct (some el) p t0 emptyDocument).2
          = (⟨some [filterIdOf t0]⟩ : Document) from rfl]
      rw [constructMany_some]
      simp
  refine ⟨hcont, hmapnd, ?_⟩
  intro t ht
  show ((constructMany el p toks emptyDocument).container.map
      (fun l => l.filter (fun x => x ≠ filterIdOf t)))
    = some ((toks.map filterIdOf).erase (filterIdOf t))
  rw [hcont]
  show some ((toks.map filterIdOf).filter (fun x => x ≠ filterIdOf t))
    = some ((toks.map filterIdOf).erase (filterIdOf t))
  rw [filter_ne_eq_erase hmapnd]

/-- Claim C7, witness: three concrete constructions on a fresh document, with
the middle instance removed. -/
theorem claim7_witness :
    ((["aa1", "bb2", "cc3"] : List String) ≠ [] ∧
     (["aa1", "bb2", "cc3"] : List String).Nodup ∧
     "bb2" ∈ (["aa1", "bb2", "cc3"] : List String)) ∧
    ((constructMany elEx emptyInput ["aa1", "bb2", "cc3"]
        emptyDocument).container
        = some (["aa1", "bb2", "cc3"].map filterIdOf) ∧
     (removeFilterFromDoc
        (constructMany elEx emptyInput ["aa1", "bb2", "cc3"] emptyDocument)
        (filterIdOf "bb2")).container
        = some ((["aa1", "bb2", "cc3"].map filterIdOf).erase
            (filterIdOf "bb2"))) :=
  ⟨⟨by decide, by decide, by decide⟩,
   ⟨(claim7_registry elEx emptyInput ["aa1", "bb2", "cc3"] (by decide)
      (by decide)).1,
    (claim7_registry elEx emptyInput ["aa1", "bb2", "cc3"] (by decide)
      (by decide)).2.2 "bb2" (by decide)⟩⟩

/-- Claim C9 (confirmed).  destroy does not disable the instance: every
update operation applied after destroy is total (the embedding raises
nothing), overwrites its configuration fields, and writes its style
variables back onto the surface — and, for updateDistortion, patches the
(detached) filter node's stage parameters — with exactly the supplied
values, just as before destroy. -/
theorem claim9_update_after_destroy (s : GlassState) (doc : Document)
    (b sp c o ft ob oc tc : String) (f st : Rat) :
    (getProp (updateShadow ⟨some b, some sp, some c, some o⟩
          (destroy s doc).1).element "--shadow-blur" = some b ∧
     getProp (updateShadow ⟨some b, some sp, some c, some o⟩
          (destroy s doc).1).element "--shadow-spread" = some sp ∧
     getProp (updateShadow ⟨some b, some sp, some c, some o⟩
          (destroy s doc).1).element "--shadow-color" = some c ∧
     getProp (updateShadow ⟨some b, some sp, some c, some o⟩
          (destroy s doc).1).element "--shadow-offset" = some o ∧
     (updateShadow ⟨some b, some sp, some c, some o⟩
          (destroy s doc).1).options.shadowBlur = b ∧
     (updateShadow ⟨some b, some sp, some c, some o⟩
          (destroy s doc).1).options.shadowSpread = sp ∧
     (updateShadow ⟨some b, some sp, some c, some o⟩
          (destroy s doc).1).options.shadowColor = c ∧
     (updateShadow ⟨some b, some sp, some c, some o⟩
          (destroy s doc).1).options.shadowOffset = o) ∧
    (getProp (updateTint ⟨some tc, none⟩ (destroy s doc).1).element
          "--tint-color" = some tc ∧
     (updateTint ⟨some tc, none⟩ (destroy s doc).1).options.tintColor = tc) ∧
    (getProp (updateFrost ft (destroy s doc).1).element "--frost-blur"
          = some ft ∧
     (updateFrost ft (destroy s doc).1).options.frostBlur = ft) ∧
    ((updateDistortion ⟨some f, some st⟩
          (destroy s doc).1).svgFilter.baseFrequency = f ∧
     (updateDistortion ⟨some f, some st⟩ (destroy s doc).1).svgFilter.scale
          = st ∧
     (updateDistortion ⟨some f, some st⟩
          (destroy s doc).1).options.noiseFrequency = f ∧
     (updateDistortion ⟨some f, some st⟩
          (destroy s doc).1).options.distortionStrength = st) ∧
    (getProp (updateOuterShadow ⟨some ob, some oc⟩
          (destroy s doc).1).element "--outer-shadow-blur" = some ob ∧
     getProp (updateOuterShadow ⟨some ob, some oc⟩
          (destroy s doc).1).element "--outer-shadow-color" = some oc ∧
     (updateOuterShadow ⟨some ob, some oc⟩
          (destroy s doc).1).options.outerShadowBlur = ob ∧
     (updateOuterShadow ⟨some ob, some oc⟩
          (destroy s doc).1).options.outerShadowColor = oc) := by
  refine ⟨⟨?_, ?_, ?_, ?_, rfl, rfl, rfl, rfl⟩, ⟨?_, rfl⟩, ⟨?_, rfl⟩,
    ⟨rfl, rfl, rfl, rfl⟩, ⟨?_, ?_, rfl, rfl⟩⟩
  · simp [updateShadow, getProp_setProp]
  · simp [updateShadow, getProp_setProp]
  · simp [updateShadow, getProp_setProp]
  · simp [updateShadow, getProp_setProp]
  · simp [updateTint, getProp_setProp]
  · simp [updateFrost, getProp_setProp]
  · simp [updateOuterShadow, getProp_setProp]
  · simp [updateOuterShadow, getProp_setProp]

end LiquidGlass
